import Mathlib

/-!
Verification development for the synthetic HHC-RSP instance generator
(`Outputs&Codigo/PARTE3/15-gerador_instancias.py`).

Python floats are modelled as exact real numbers; machine integers as Nat/Int;
fallible code returns `Option`/`Except`.  NumPy's global Mersenne-Twister
generator is modelled as a deterministic stream of rationals in `[0,1)`
indexed by draw position: each sampling primitive consumes one stream value
and advances the index.  The claims settled here depend only on the stream
being a deterministic function of the seed and on its values lying in
`[0,1)`, not on the exact MT19937 bit pattern.
-/

/-- Modelled from the spec: NumPy's seeded global random stream.  The real
stream is MT19937 (library code, not in this repository); it is abstracted
to an explicit deterministic linear-congruential function of the seed,
faithful to the reproducibility contract "fixed seed ⇒ bit-identical
draws" and to the range `[0,1)` of `np.random.random`. -/
def lcgPasso (x : ℕ) : ℕ := (x * 1103515245 + 12345) % 4294967296

/-- Iterate of `lcgPasso`: the `i`-th raw word of the seeded stream. -/
def lcgPalavra (s : ℕ) : ℕ → ℕ
  | 0 => lcgPasso s
  | i + 1 => lcgPasso (lcgPalavra s i)

/-- Modelled from the spec: the seeded uniform stream, one rational in
`[0,1)` per draw position. -/
def seedStream (s : ℕ) (i : ℕ) : ℚ := (lcgPalavra s i : ℚ) / 4294967296

/-- State of the global NumPy random generator: the uniform stream for the
current seed together with the position of the next draw. -/
structure RNG where
  stream : ℕ → ℚ
  idx : ℕ

/-- Consume one uniform value from the stream. -/
def RNG.next (r : RNG) : ℚ × RNG := (r.stream r.idx, ⟨r.stream, r.idx + 1⟩)

/-- A well-formed stream: every value lies in `[0,1)`, as NumPy's uniform
draws do. -/
def RNG.Valid (r : RNG) : Prop := ∀ i, 0 ≤ r.stream i ∧ r.stream i < 1

/-- `np.random.seed(s)` (line 560): reset the global generator to the
stream determined by the seed. -/
def np_random_seed (s : ℕ) : RNG := ⟨seedStream s, 0⟩

/-- `np.random.random()`: one uniform draw in `[0,1)`. -/
def np_random_random (r : RNG) : ℚ × RNG := r.next

/-- Modelled from the spec: the numerical transform NumPy applies to turn
uniform entropy into a Gaussian variate.  The claims never use the
distribution's shape, only determinism and the state advance, so the
transform is abstracted to an affine map of the uniform value. -/
def normalTransform (v : ℚ) : ℝ := 2 * (v : ℝ) - 1

/-- `np.random.normal(mu, sigma)`: one Gaussian draw. -/
def np_random_normal (mu sigma : ℝ) (r : RNG) : ℝ × RNG :=
  let d := r.next
  (mu + sigma * normalTransform d.1, d.2)

/-- `np.random.randint(lo, hi)`: one uniform integer draw in `[lo, hi)`,
realised as `lo + ⌊v * (hi - lo)⌋` for a uniform `v ∈ [0,1)`. -/
def np_random_randint (lo hi : ℕ) (r : RNG) : ℕ × RNG :=
  let d := r.next
  (lo + (Int.toNat ⌊d.1 * ((hi - lo : ℕ) : ℚ)⌋), d.2)

theorem seedStream_valid (s : ℕ) : (np_random_seed s).Valid := by
  intro i
  constructor
  · exact div_nonneg (by positivity) (by norm_num)
  · show (lcgPalavra s i : ℚ) / 4294967296 < 1
    rw [div_lt_one (by norm_num)]
    have h : lcgPalavra s i < 4294967296 := by
      cases i with
      | zero => exact Nat.mod_lt _ (by norm_num)
      | succ j => exact Nat.mod_lt _ (by norm_num)
    exact_mod_cast h

theorem np_random_randint_bounds (lo hi : ℕ) (hlt : lo < hi) (r : RNG)
    (hv : r.Valid) :
    lo ≤ (np_random_randint lo hi r).1 ∧ (np_random_randint lo hi r).1 ≤ hi - 1 := by
  obtain ⟨h0, h1⟩ := hv r.idx
  have hk : (1 : ℚ) ≤ ((hi - lo : ℕ) : ℚ) := by
    have : 1 ≤ hi - lo := by omega
    exact_mod_cast this
  have hfloor0 : (0 : ℤ) ≤ ⌊r.stream r.idx * ((hi - lo : ℕ) : ℚ)⌋ := by
    apply Int.floor_nonneg.mpr
    exact mul_nonneg h0 (by linarith)
  have hfloorlt : ⌊r.stream r.idx * ((hi - lo : ℕ) : ℚ)⌋ < ((hi - lo : ℕ) : ℤ) := by
    apply Int.floor_lt.mpr
    push_cast
    calc r.stream r.idx * ((hi - lo : ℕ) : ℚ) < 1 * ((hi - lo : ℕ) : ℚ) := by
          apply mul_lt_mul_of_pos_right h1 (by linarith)
      _ = ((hi - lo : ℕ) : ℚ) := one_mul _
  have htn : Int.toNat ⌊r.stream r.idx * ((hi - lo : ℕ) : ℚ)⌋ ≤ hi - lo - 1 := by
    omega
  constructor
  · exact Nat.le_add_right _ _
  · show lo + Int.toNat ⌊r.stream r.idx * ((hi - lo : ℕ) : ℚ)⌋ ≤ hi - 1
    omega

-- ============================================================================
-- Generation parameters (lines 102-178 of the source)
-- ============================================================================

/-- Home-care modality labels (Python strings). -/
def AD2 : String := "AD2"

def AD3 : String := "AD3"

/-- `DIST_MODALIDADE` (lines 113-116): modality shares, AD2 70%, AD3 30%. -/
def DIST_MODALIDADE (m : String) : ℚ :=
  if m = AD2 then 7/10 else if m = AD3 then 3/10 else 0

/-- Time-window labels. -/
def jan_manha : String := "manha"

def jan_tarde : String := "tarde"

def jan_integral : String := "integral"

/-- `DIST_JANELA` (lines 150-154): window preference shares. -/
def DIST_JANELA (j : String) : ℚ :=
  if j = jan_manha then 2/5 else if j = jan_tarde then 7/20
  else if j = jan_integral then 1/4 else 0

/-- `JANELAS_HORARIO` (lines 156-160): window bounds in minutes from 00:00.
Unknown keys would raise `KeyError` in Python; the `(0,0)` default is
unreachable from the draw. -/
def JANELAS_HORARIO (j : String) : ℕ × ℕ :=
  if j = jan_manha then (420, 720) else if j = jan_tarde then (780, 1080)
  else if j = jan_integral then (420, 1080) else (0, 0)

def unidade_semanal : String := "semanal"

/-- `FREQ_VISITAS` (lines 129-132): weekly visit-count bounds per modality
(`min`, `max`, `unidade`).  Unknown keys would raise `KeyError`; the
default is unreachable from the modality draw. -/
def FREQ_VISITAS (m : String) : ℕ × ℕ × String :=
  if m = AD2 then (1, 3, unidade_semanal)
  else if m = AD3 then (5, 7, unidade_semanal) else (0, 0, unidade_semanal)

/-- `TEMPO_SERVICO` (lines 144-147): service-time bounds (minutes) per
modality.  Same `KeyError` remark as `FREQ_VISITAS`. -/
def TEMPO_SERVICO (m : String) : ℕ × ℕ :=
  if m = AD2 then (30, 60) else if m = AD3 then (45, 90) else (0, 0)

/-- `CAPACIDADE_EQUIPE_MIN` (line 174), minutes. -/
def CAPACIDADE_EQUIPE_MIN : ℕ := 360

/-- `CAPACIDADE_EQUIPE_MAX` (line 175), minutes. -/
def CAPACIDADE_EQUIPE_MAX : ℕ := 480

/-- `VELOCIDADE_MEDIA` (line 178), km/h. -/
def VELOCIDADE_MEDIA : ℝ := 25

-- ============================================================================
-- Attribute samplers (lines 239-297)
-- ============================================================================

/-- `sortear_modalidade` (lines 239-254): AD2 if the uniform draw is below
0.70, AD3 otherwise. -/
def sortear_modalidade (r : RNG) : String × RNG :=
  let d := np_random_random r
  (if d.1 < DIST_MODALIDADE AD2 then AD2 else AD3, d.2)

/-- `sortear_janela_tempo` (lines 257-272). -/
def sortear_janela_tempo (r : RNG) : String × RNG :=
  let d := np_random_random r
  (if d.1 < DIST_JANELA jan_manha then jan_manha
   else if d.1 < DIST_JANELA jan_manha + DIST_JANELA jan_tarde then jan_tarde
   else jan_integral, d.2)

/-- `gerar_frequencia` (lines 275-285): `randint(min, max+1)` on the
modality's bounds, returned with the unit string. -/
def gerar_frequencia (modalidade : String) (r : RNG) : (ℕ × String) × RNG :=
  let params := FREQ_VISITAS modalidade
  let d := np_random_randint params.1 (params.2.1 + 1) r
  ((d.1, params.2.2), d.2)

/-- `gerar_tempo_servico` (lines 288-297): `randint(min, max+1)` on the
modality's service-time bounds. -/
def gerar_tempo_servico (modalidade : String) (r : RNG) : ℕ × RNG :=
  let params := TEMPO_SERVICO modalidade
  let d := np_random_randint params.1 (params.2 + 1) r
  (d.1, d.2)

/-- Validity only depends on the stream, which every draw preserves. -/
theorem RNG.Valid.of_stream_eq {r' r : RNG} (h : r'.stream = r.stream)
    (hv : r.Valid) : r'.Valid := by
  intro j
  rw [h]
  exact hv j

theorem sortear_modalidade_cases (r : RNG) :
    (sortear_modalidade r).1 = AD2 ∨ (sortear_modalidade r).1 = AD3 := by
  rcases lt_or_ge (np_random_random r).1 (DIST_MODALIDADE AD2) with h | h
  · left
    simp [sortear_modalidade, h]
  · right
    simp [sortear_modalidade, not_lt.mpr h]

theorem gerar_frequencia_AD2 (r : RNG) (hv : r.Valid) :
    1 ≤ (gerar_frequencia AD2 r).1.1 ∧ (gerar_frequencia AD2 r).1.1 ≤ 3 := by
  have h := np_random_randint_bounds 1 4 (by norm_num) r hv
  simpa [gerar_frequencia, FREQ_VISITAS] using h

theorem gerar_frequencia_AD3 (r : RNG) (hv : r.Valid) :
    5 ≤ (gerar_frequencia AD3 r).1.1 ∧ (gerar_frequencia AD3 r).1.1 ≤ 7 := by
  have h := np_random_randint_bounds 5 8 (by norm_num) r hv
  simpa [gerar_frequencia, FREQ_VISITAS, AD2, AD3] using h

theorem gerar_tempo_servico_AD2 (r : RNG) (hv : r.Valid) :
    30 ≤ (gerar_tempo_servico AD2 r).1 ∧ (gerar_tempo_servico AD2 r).1 ≤ 60 := by
  have h := np_random_randint_bounds 30 61 (by norm_num) r hv
  simpa [gerar_tempo_servico, TEMPO_SERVICO] using h

theorem gerar_tempo_servico_AD3 (r : RNG) (hv : r.Valid) :
    45 ≤ (gerar_tempo_servico AD3 r).1 ∧ (gerar_tempo_servico AD3 r).1 ≤ 90 := by
  have h := np_random_randint_bounds 45 91 (by norm_num) r hv
  simpa [gerar_tempo_servico, TEMPO_SERVICO, AD2, AD3] using h

-- ============================================================================
-- Patients (lines 442-498)
-- ============================================================================

/-- `math.radians` / `np.radians`: degrees to radians. -/
noncomputable def radians (x : ℝ) : ℝ := x * (Real.pi / 180)

/-- Python `round(x, 6)` (lines 485-486).  Python rounds ties to even; the
model rounds to the nearest multiple of `10⁻⁶` (ties up).  No claim depends
on the tie-breaking rule. -/
noncomputable def round6 (x : ℝ) : ℝ := (round (x * 1000000) : ℝ) / 1000000

/-- Census-sector record (`carregar_setores_censitarios`, lines 408-439);
only the fields the generator touches. -/
structure Setor where
  cd_setor : String
  populacao_idosa : ℤ

/-- One synthetic patient (the dict built at lines 483-494). -/
structure Paciente where
  id : ℕ
  lat : ℝ
  lon : ℝ
  modalidade : String
  janela_inicio : ℕ
  janela_fim : ℕ
  frequencia : ℕ
  frequencia_unidade : String
  tempo_servico : ℕ
  prioridade : ℕ

/-- One iteration of the loop body at lines 470-496: Gaussian coordinate
dispersion around the centre, then the attribute draws, in source order. -/
noncomputable def gerar_um_paciente (i : ℕ) (centro_lat centro_lon raio_km : ℝ)
    (r : RNG) : Paciente × RNG :=
  let g1 := np_random_normal 0 (raio_km / 111) r
  let lat := centro_lat + g1.1
  let g2 := np_random_normal 0 (raio_km / (111 * Real.cos (radians centro_lat))) g1.2
  let lon := centro_lon + g2.1
  let m := sortear_modalidade g2.2
  let jt := sortear_janela_tempo m.2
  let jan := JANELAS_HORARIO jt.1
  let fr := gerar_frequencia m.1 jt.2
  let ts := gerar_tempo_servico m.1 fr.2
  (⟨i + 1, round6 lat, round6 lon, m.1, jan.1, jan.2, fr.1.1, fr.1.2, ts.1,
    if m.1 = AD3 then 3 else if m.1 = AD2 then 2 else 1⟩, ts.2)

/-- The `for i in range(n_pacientes)` loop of `gerar_pacientes`,
accumulating the list in generation order. -/
noncomputable def gpLoop (centro_lat centro_lon raio_km : ℝ) :
    ℕ → ℕ → RNG → List Paciente × RNG
  | _, 0, r => ([], r)
  | i, k + 1, r =>
    let pr := gerar_um_paciente i centro_lat centro_lon raio_km r
    let rest := gpLoop centro_lat centro_lon raio_km (i + 1) k pr.2
    (pr.1 :: rest.1, rest.2)

/-- `gerar_pacientes` (lines 442-498).  The `setores_df` argument is
accepted, exactly as in the source, and never read: placement is a plain
Gaussian dispersion around the centre.  `raio_km` defaults to 10 in the
source; callers here pass it explicitly. -/
noncomputable def gerar_pacientes (n_pacientes : ℕ) (setores_df : Option (List Setor))
    (centro_lat centro_lon raio_km : ℝ) (r : RNG) : List Paciente × RNG :=
  gpLoop centro_lat centro_lon raio_km 0 n_pacientes r

theorem gerar_um_paciente_stream (i : ℕ) (clat clon raio : ℝ) (r : RNG) :
    ((gerar_um_paciente i clat clon raio r).2).stream = r.stream := rfl

/-- Every member of the generated list is the output of one loop iteration
run on a generator state carrying the same stream. -/
theorem gpLoop_mem (clat clon raio : ℝ) :
    ∀ (k i : ℕ) (r : RNG) (p : Paciente),
      p ∈ (gpLoop clat clon raio i k r).1 →
      ∃ (i' : ℕ) (r' : RNG), r'.stream = r.stream ∧
        p = (gerar_um_paciente i' clat clon raio r').1 := by
  intro k
  induction k with
  | zero =>
    intro i r p hp
    simp [gpLoop] at hp
  | succ k ih =>
    intro i r p hp
    simp only [gpLoop, List.mem_cons] at hp
    rcases hp with hp | hp
    · exact ⟨i, r, rfl, hp⟩
    · obtain ⟨i', r', hs, hp'⟩ := ih (i + 1) (gerar_um_paciente i clat clon raio r).2 p hp
      exact ⟨i', r', hs.trans (gerar_um_paciente_stream i clat clon raio r), hp'⟩

set_option maxHeartbeats 1600000 in
/-- Attribute ranges of a single generated patient: modality is always AD2
or AD3, and frequency / service time stay inside the modality's bounds. -/
theorem um_paciente_c4 (i : ℕ) (clat clon raio : ℝ) (r : RNG) (hv : r.Valid) :
    ((gerar_um_paciente i clat clon raio r).1.modalidade = AD2 ∨
      (gerar_um_paciente i clat clon raio r).1.modalidade = AD3) ∧
    ((gerar_um_paciente i clat clon raio r).1.modalidade = AD2 →
      1 ≤ (gerar_um_paciente i clat clon raio r).1.frequencia ∧
      (gerar_um_paciente i clat clon raio r).1.frequencia ≤ 3 ∧
      30 ≤ (gerar_um_paciente i clat clon raio r).1.tempo_servico ∧
      (gerar_um_paciente i clat clon raio r).1.tempo_servico ≤ 60) ∧
    ((gerar_um_paciente i clat clon raio r).1.modalidade = AD3 →
      5 ≤ (gerar_um_paciente i clat clon raio r).1.frequencia ∧
      (gerar_um_paciente i clat clon raio r).1.frequencia ≤ 7 ∧
      45 ≤ (gerar_um_paciente i clat clon raio r).1.tempo_servico ∧
      (gerar_um_paciente i clat clon raio r).1.tempo_servico ≤ 90) := by
  simp only [gerar_um_paciente, sortear_modalidade, np_random_random]
  split_ifs with hc
  · refine ⟨Or.inl rfl, fun _ => ⟨?_, ?_, ?_, ?_⟩, fun habs => absurd habs (by decide)⟩
    · refine (gerar_frequencia_AD2 ?_ ?_).1
      exact RNG.Valid.of_stream_eq rfl hv
    · refine (gerar_frequencia_AD2 ?_ ?_).2
      exact RNG.Valid.of_stream_eq rfl hv
    · refine (gerar_tempo_servico_AD2 ?_ ?_).1
      exact RNG.Valid.of_stream_eq rfl hv
    · refine (gerar_tempo_servico_AD2 ?_ ?_).2
      exact RNG.Valid.of_stream_eq rfl hv
  · refine ⟨Or.inr rfl, fun habs => absurd habs (by decide), fun _ => ⟨?_, ?_, ?_, ?_⟩⟩
    · refine (gerar_frequencia_AD3 ?_ ?_).1
      exact RNG.Valid.of_stream_eq rfl hv
    · refine (gerar_frequencia_AD3 ?_ ?_).2
      exact RNG.Valid.of_stream_eq rfl hv
    · refine (gerar_tempo_servico_AD3 ?_ ?_).1
      exact RNG.Valid.of_stream_eq rfl hv
    · refine (gerar_tempo_servico_AD3 ?_ ?_).2
      exact RNG.Valid.of_stream_eq rfl hv

/-- Priority of a single generated patient is a deterministic function of
the modality; the `1` branch of the ternary at line 493 is unreachable. -/
theorem um_paciente_c9 (i : ℕ) (clat clon raio : ℝ) (r : RNG) :
    ((gerar_um_paciente i clat clon raio r).1.prioridade = 3 ↔
      (gerar_um_paciente i clat clon raio r).1.modalidade = AD3) ∧
    ((gerar_um_paciente i clat clon raio r).1.prioridade = 2 ↔
      (gerar_um_paciente i clat clon raio r).1.modalidade = AD2) ∧
    (gerar_um_paciente i clat clon raio r).1.prioridade ≠ 1 ∧
    ((gerar_um_paciente i clat clon raio r).1.modalidade = AD2 ∨
      (gerar_um_paciente i clat clon raio r).1.modalidade = AD3) := by
  simp only [gerar_um_paciente, sortear_modalidade, np_random_random]
  split_ifs with hc
  all_goals simp_all [AD2, AD3]

/-- Claim C4: every generated patient with Standard modality (AD2) has
frequency in [1,3] and service time in [30,60]; every Intensive patient
(AD3) has frequency in [5,7] and service time in [45,90]; modality is
always one of the two, so the ranges never overlap in assignment. -/
theorem claim_c4_frequencia_por_modalidade (n : ℕ) (sdf : Option (List Setor))
    (clat clon raio : ℝ) (r : RNG) (hv : r.Valid) (p : Paciente)
    (hp : p ∈ (gerar_pacientes n sdf clat clon raio r).1) :
    (p.modalidade = AD2 ∨ p.modalidade = AD3) ∧
    (p.modalidade = AD2 → 1 ≤ p.frequencia ∧ p.frequencia ≤ 3 ∧
      30 ≤ p.tempo_servico ∧ p.tempo_servico ≤ 60) ∧
    (p.modalidade = AD3 → 5 ≤ p.frequencia ∧ p.frequencia ≤ 7 ∧
      45 ≤ p.tempo_servico ∧ p.tempo_servico ≤ 90) := by
  obtain ⟨i', r', hs, rfl⟩ := gpLoop_mem clat clon raio n 0 r p hp
  have hv' : r'.Valid := by
    intro j
    rw [hs]
    exact hv j
  exact um_paciente_c4 i' clat clon raio r' hv'

/-- Claim C9: every generated patient's priority is 3 iff Intensive (AD3),
2 iff Standard (AD2), never any other value — the `1` branch is
unreachable because the modality draw returns only AD2 or AD3. -/
theorem claim_c9_prioridade_por_modalidade (n : ℕ) (sdf : Option (List Setor))
    (clat clon raio : ℝ) (r : RNG) (p : Paciente)
    (hp : p ∈ (gerar_pacientes n sdf clat clon raio r).1) :
    (p.prioridade = 3 ↔ p.modalidade = AD3) ∧
    (p.prioridade = 2 ↔ p.modalidade = AD2) ∧
    p.prioridade ≠ 1 ∧
    (p.modalidade = AD2 ∨ p.modalidade = AD3) := by
  obtain ⟨i', r', hs, rfl⟩ := gpLoop_mem clat clon raio n 0 r p hp
  exact um_paciente_c9 i' clat clon raio r'

/-- A concrete seeded generator state used by witnesses. -/
def rngTeste : RNG := np_random_seed 42

/-- The single patient produced by a one-patient generation run. -/
noncomputable def pacienteTeste : Paciente := (gerar_um_paciente 0 0 0 10 rngTeste).1

theorem pacienteTeste_mem :
    pacienteTeste ∈ (gerar_pacientes 1 none 0 0 10 rngTeste).1 :=
  List.mem_cons_self _ _

/-- Witness for claim C4 at a concrete seeded run. -/
theorem claim_c4_witness :
    rngTeste.Valid ∧
    pacienteTeste ∈ (gerar_pacientes 1 none 0 0 10 rngTeste).1 ∧
    ((pacienteTeste.modalidade = AD2 ∨ pacienteTeste.modalidade = AD3) ∧
      (pacienteTeste.modalidade = AD2 → 1 ≤ pacienteTeste.frequencia ∧
        pacienteTeste.frequencia ≤ 3 ∧ 30 ≤ pacienteTeste.tempo_servico ∧
        pacienteTeste.tempo_servico ≤ 60) ∧
      (pacienteTeste.modalidade = AD3 → 5 ≤ pacienteTeste.frequencia ∧
        pacienteTeste.frequencia ≤ 7 ∧ 45 ≤ pacienteTeste.tempo_servico ∧
        pacienteTeste.tempo_servico ≤ 90)) :=
  ⟨seedStream_valid 42, pacienteTeste_mem,
    claim_c4_frequencia_por_modalidade 1 none 0 0 10 rngTeste (seedStream_valid 42)
      pacienteTeste pacienteTeste_mem⟩

/-- Witness for claim C9 at a concrete seeded run. -/
theorem claim_c9_witness :
    pacienteTeste ∈ (gerar_pacientes 1 none 0 0 10 rngTeste).1 ∧
    ((pacienteTeste.prioridade = 3 ↔ pacienteTeste.modalidade = AD3) ∧
      (pacienteTeste.prioridade = 2 ↔ pacienteTeste.modalidade = AD2) ∧
      pacienteTeste.prioridade ≠ 1 ∧
      (pacienteTeste.modalidade = AD2 ∨ pacienteTeste.modalidade = AD3)) :=
  ⟨pacienteTeste_mem,
    claim_c9_prioridade_por_modalidade 1 none 0 0 10 rngTeste
      pacienteTeste pacienteTeste_mem⟩

-- ============================================================================
-- Haversine distance and travel time (lines 184-224)
-- ============================================================================

/-- `haversine` (lines 184-212): great-circle distance in km between two
points given in decimal degrees, Earth radius 6371 km. -/
noncomputable def haversine (lon1 lat1 lon2 lat2 : ℝ) : ℝ :=
  let rlon1 := radians lon1
  let rlat1 := radians lat1
  let rlon2 := radians lon2
  let rlat2 := radians lat2
  let dlon := rlon2 - rlon1
  let dlat := rlat2 - rlat1
  let a := Real.sin (dlat / 2) ^ 2 +
    Real.cos rlat1 * Real.cos rlat2 * Real.sin (dlon / 2) ^ 2
  let c := 2 * Real.arcsin (Real.sqrt a)
  c * 6371

/-- `distancia_para_tempo` (lines 215-224): travel time in minutes.  The
source gives `velocidade_kmh` the default `VELOCIDADE_MEDIA`; callers here
pass it explicitly. -/
noncomputable def distancia_para_tempo (distancia_km velocidade_kmh : ℝ) : ℝ :=
  distancia_km / velocidade_kmh * 60

/-- The haversine formula is symmetric in its two endpoints. -/
theorem haversine_comm (lon1 lat1 lon2 lat2 : ℝ) :
    haversine lon1 lat1 lon2 lat2 = haversine lon2 lat2 lon1 lat1 := by
  have key : ∀ x y : ℝ, Real.sin ((x - y) / 2) ^ 2 = Real.sin ((y - x) / 2) ^ 2 := by
    intro x y
    rw [show (x - y) / 2 = -((y - x) / 2) by ring, Real.sin_neg, neg_sq]
  show 2 * Real.arcsin (Real.sqrt (Real.sin ((radians lat2 - radians lat1) / 2) ^ 2 +
      Real.cos (radians lat1) * Real.cos (radians lat2) *
        Real.sin ((radians lon2 - radians lon1) / 2) ^ 2)) * 6371 =
    2 * Real.arcsin (Real.sqrt (Real.sin ((radians lat1 - radians lat2) / 2) ^ 2 +
      Real.cos (radians lat2) * Real.cos (radians lat1) *
        Real.sin ((radians lon1 - radians lon2) / 2) ^ 2)) * 6371
  rw [key (radians lat2) (radians lat1), key (radians lon2) (radians lon1),
    mul_comm (Real.cos (radians lat1)) (Real.cos (radians lat2))]

-- ============================================================================
-- Registry team record (output of `carregar_equipes_emad`, lines 314-405)
-- ============================================================================

/-- One row of the loaded team frame after the merge with establishment
coordinates: only the columns the generator reads downstream.  Registry
coordinates are parsed decimal strings, modelled as rationals. -/
structure Equipe where
  co_municipio : String
  co_unidade : String
  co_equipe : String
  tp_equipe : ℤ
  lat : ℚ
  lon : ℚ

-- ============================================================================
-- Distance matrix (`calcular_matriz_distancias`, lines 501-542)
-- ============================================================================

/-- Square travel-time matrix on `m` nodes. -/
def Mat (m : ℕ) : Type := Fin m → Fin m → ℝ

/-- One NumPy element assignment `matriz[i, j] = v`. -/
def updEntry {m : ℕ} (M : Mat m) (i j : Fin m) (v : ℝ) : Mat m :=
  fun a b => if a = i ∧ b = j then v else M a b

/-- Depot loop of lines 527-531 run over an arbitrary index list: for each
patient index `i`, assign `matriz[0, i+1]` and `matriz[i+1, 0]` the same
travel time `t i`. -/
def depotGo {n : ℕ} (t : Fin n → ℝ) (l : List (Fin n)) (M : Mat (n + 1)) :
    Mat (n + 1) :=
  l.foldl (fun M i => updEntry (updEntry M 0 i.succ (t i)) i.succ 0 (t i)) M

/-- Inner pair loop of lines 534-540 for a fixed `i`: for each `j` with
`i < j`, assign `matriz[i+1, j+1]` and `matriz[j+1, i+1]` the same travel
time `t i j`. -/
def pairInnerGo {n : ℕ} (t : Fin n → Fin n → ℝ) (i : Fin n)
    (l : List (Fin n)) (M : Mat (n + 1)) : Mat (n + 1) :=
  l.foldl
    (fun M j =>
      if i < j then updEntry (updEntry M i.succ j.succ (t i j)) j.succ i.succ (t i j)
      else M) M

/-- Outer pair loop of lines 534-540 over an arbitrary index list. -/
def pairGo {n : ℕ} (t : Fin n → Fin n → ℝ) (l : List (Fin n))
    (M : Mat (n + 1)) : Mat (n + 1) :=
  l.foldl (fun M i => pairInnerGo t i (List.finRange n) M) M

/-- `calcular_matriz_distancias` (lines 501-542): `np.zeros((n+1, n+1))`,
then the depot loop, then the patient-pair loop.  `equipes.iloc[0]` raises
`IndexError` on an empty frame, modelled as `none`. -/
noncomputable def calcular_matriz_distancias (equipes : List Equipe)
    (pacientes : List Paciente) : Option (Mat (pacientes.length + 1)) :=
  match equipes with
  | [] => none
  | e :: _ =>
    let M0 : Mat (pacientes.length + 1) := fun _ _ => 0
    let M1 := depotGo (fun i =>
      distancia_para_tempo
        (haversine (e.lon : ℝ) (e.lat : ℝ) (pacientes.get i).lon (pacientes.get i).lat)
        VELOCIDADE_MEDIA) (List.finRange pacientes.length) M0
    some (pairGo (fun i j =>
      distancia_para_tempo
        (haversine (pacientes.get i).lon (pacientes.get i).lat
          (pacientes.get j).lon (pacientes.get j).lat)
        VELOCIDADE_MEDIA) (List.finRange pacientes.length) M1)

theorem depotGo_ne_zero {n : ℕ} (t : Fin n → ℝ) (l : List (Fin n))
    (M : Mat (n + 1)) (a b : Fin (n + 1)) (ha : a ≠ 0) (hb : b ≠ 0) :
    depotGo t l M a b = M a b := by
  induction l generalizing M with
  | nil => rfl
  | cons i l ih =>
    show depotGo t l _ a b = M a b
    rw [ih]
    simp only [updEntry]
    rw [if_neg (fun h => hb h.2), if_neg (fun h => ha h.1)]

theorem depotGo_zero_succ {n : ℕ} (t : Fin n → ℝ) (l : List (Fin n))
    (M : Mat (n + 1)) (j : Fin n) :
    depotGo t l M 0 j.succ = if j ∈ l then t j else M 0 j.succ := by
  induction l generalizing M with
  | nil => simp [depotGo]
  | cons i l ih =>
    show depotGo t l _ 0 j.succ = _
    rw [ih]
    by_cases hjl : j ∈ l
    · simp [hjl]
    · rw [if_neg hjl]
      simp only [updEntry]
      rw [if_neg (fun h => (Fin.succ_ne_zero i) h.1.symm)]
      by_cases hji : j = i
      · subst hji
        simp [List.mem_cons]
      · rw [if_neg (fun h => hji (Fin.succ_inj.mp h.2))]
        simp [List.mem_cons, hjl, hji]

theorem depotGo_succ_zero {n : ℕ} (t : Fin n → ℝ) (l : List (Fin n))
    (M : Mat (n + 1)) (i0 : Fin n) :
    depotGo t l M i0.succ 0 = if i0 ∈ l then t i0 else M i0.succ 0 := by
  induction l generalizing M with
  | nil => simp [depotGo]
  | cons i l ih =>
    show depotGo t l _ i0.succ 0 = _
    rw [ih]
    by_cases hjl : i0 ∈ l
    · simp [hjl]
    · rw [if_neg hjl]
      simp only [updEntry]
      by_cases hji : i0 = i
      · subst hji
        simp [List.mem_cons]
      · rw [if_neg (fun h => hji (Fin.succ_inj.mp h.1)),
          if_neg (fun h => (Fin.succ_ne_zero i0) h.1)]
        simp [List.mem_cons, hjl, hji]

theorem depotGo_zero_zero {n : ℕ} (t : Fin n → ℝ) (l : List (Fin n))
    (M : Mat (n + 1)) :
    depotGo t l M 0 0 = M 0 0 := by
  induction l generalizing M with
  | nil => rfl
  | cons i l ih =>
    show depotGo t l _ 0 0 = M 0 0
    rw [ih]
    simp only [updEntry]
    rw [if_neg (fun h => (Fin.succ_ne_zero i) h.1.symm),
      if_neg (fun h => (Fin.succ_ne_zero i) h.2.symm)]

theorem pairInnerGo_zero_left {n : ℕ} (t : Fin n → Fin n → ℝ) (i : Fin n)
    (l : List (Fin n)) (M : Mat (n + 1)) (y : Fin (n + 1)) :
    pairInnerGo t i l M 0 y = M 0 y := by
  induction l generalizing M with
  | nil => rfl
  | cons j l ih =>
    show pairInnerGo t i l _ 0 y = M 0 y
    rw [ih]
    beta_reduce
    by_cases hij : i < j
    · rw [if_pos hij]
      simp only [updEntry]
      rw [if_neg (fun hc => (Fin.succ_ne_zero j) hc.1.symm),
        if_neg (fun hc => (Fin.succ_ne_zero i) hc.1.symm)]
    · rw [if_neg hij]

theorem pairInnerGo_zero_right {n : ℕ} (t : Fin n → Fin n → ℝ) (i : Fin n)
    (l : List (Fin n)) (M : Mat (n + 1)) (x : Fin (n + 1)) :
    pairInnerGo t i l M x 0 = M x 0 := by
  induction l generalizing M with
  | nil => rfl
  | cons j l ih =>
    show pairInnerGo t i l _ x 0 = M x 0
    rw [ih]
    beta_reduce
    by_cases hij : i < j
    · rw [if_pos hij]
      simp only [updEntry]
      rw [if_neg (fun hc => (Fin.succ_ne_zero i) hc.2.symm),
        if_neg (fun hc => (Fin.succ_ne_zero j) hc.2.symm)]
    · rw [if_neg hij]

theorem pairInnerGo_diag {n : ℕ} (t : Fin n → Fin n → ℝ) (i : Fin n)
    (l : List (Fin n)) (M : Mat (n + 1)) (a : Fin n) :
    pairInnerGo t i l M a.succ a.succ = M a.succ a.succ := by
  induction l generalizing M with
  | nil => rfl
  | cons j l ih =>
    show pairInnerGo t i l _ a.succ a.succ = M a.succ a.succ
    rw [ih]
    beta_reduce
    by_cases hij : i < j
    · rw [if_pos hij]
      simp only [updEntry]
      have h1 : ¬(a.succ = j.succ ∧ a.succ = i.succ) := by
        rintro ⟨hc1, hc2⟩
        rw [Fin.succ_inj] at hc1 hc2
        subst hc1
        subst hc2
        exact absurd hij (lt_irrefl a)
      have h2 : ¬(a.succ = i.succ ∧ a.succ = j.succ) := by
        rintro ⟨hc1, hc2⟩
        rw [Fin.succ_inj] at hc1 hc2
        subst hc1
        subst hc2
        exact absurd hij (lt_irrefl a)
      rw [if_neg h1, if_neg h2]
    · rw [if_neg hij]

theorem pairInnerGo_succ_lt {n : ℕ} (t : Fin n → Fin n → ℝ) (i : Fin n)
    (l : List (Fin n)) (M : Mat (n + 1)) {a b : Fin n} (hab : a < b) :
    pairInnerGo t i l M a.succ b.succ =
      if i = a ∧ b ∈ l then t a b else M a.succ b.succ := by
  induction l generalizing M with
  | nil => simp [pairInnerGo]
  | cons j l ih =>
    show pairInnerGo t i l _ a.succ b.succ = _
    rw [ih]
    beta_reduce
    by_cases hmem : i = a ∧ b ∈ l
    · rw [if_pos hmem, if_pos ⟨hmem.1, List.mem_cons_of_mem j hmem.2⟩]
    · rw [if_neg hmem]
      by_cases hij : i < j
      · rw [if_pos hij]
        simp only [updEntry]
        have h1 : ¬(a.succ = j.succ ∧ b.succ = i.succ) := by
          rintro ⟨hc1, hc2⟩
          rw [Fin.succ_inj] at hc1 hc2
          subst hc1
          subst hc2
          exact absurd hij (not_lt.mpr (le_of_lt hab))
        rw [if_neg h1]
        by_cases hc : a.succ = i.succ ∧ b.succ = j.succ
        · rw [if_pos hc]
          obtain ⟨hc1, hc2⟩ := hc
          rw [Fin.succ_inj] at hc1 hc2
          rw [if_pos ⟨hc1.symm, by rw [hc2]; exact List.mem_cons_self j l⟩,
            ← hc1, ← hc2]
        · rw [if_neg hc]
          have h2 : ¬(i = a ∧ b ∈ j :: l) := by
            rintro ⟨hia, hbl⟩
            rcases List.mem_cons.mp hbl with hbj | hbl'
            · exact hc ⟨by rw [hia], by rw [hbj]⟩
            · exact hmem ⟨hia, hbl'⟩
          rw [if_neg h2]
      · rw [if_neg hij]
        have h2 : ¬(i = a ∧ b ∈ j :: l) := by
          rintro ⟨hia, hbl⟩
          rcases List.mem_cons.mp hbl with hbj | hbl'
          · refine hij ?_
            rw [hia, ← hbj]
            exact hab
          · exact hmem ⟨hia, hbl'⟩
        rw [if_neg h2]

theorem pairInnerGo_succ_gt {n : ℕ} (t : Fin n → Fin n → ℝ) (i : Fin n)
    (l : List (Fin n)) (M : Mat (n + 1)) {a b : Fin n} (hab : b < a) :
    pairInnerGo t i l M a.succ b.succ =
      if i = b ∧ a ∈ l then t b a else M a.succ b.succ := by
  induction l generalizing M with
  | nil => simp [pairInnerGo]
  | cons j l ih =>
    show pairInnerGo t i l _ a.succ b.succ = _
    rw [ih]
    beta_reduce
    by_cases hmem : i = b ∧ a ∈ l
    · rw [if_pos hmem, if_pos ⟨hmem.1, List.mem_cons_of_mem j hmem.2⟩]
    · rw [if_neg hmem]
      by_cases hij : i < j
      · rw [if_pos hij]
        simp only [updEntry]
        by_cases hc : a.succ = j.succ ∧ b.succ = i.succ
        · rw [if_pos hc]
          obtain ⟨hc1, hc2⟩ := hc
          rw [Fin.succ_inj] at hc1 hc2
          rw [if_pos ⟨hc2.symm, by rw [hc1]; exact List.mem_cons_self j l⟩,
            ← hc2, ← hc1]
        · rw [if_neg hc]
          have h1 : ¬(a.succ = i.succ ∧ b.succ = j.succ) := by
            rintro ⟨hd1, hd2⟩
            rw [Fin.succ_inj] at hd1 hd2
            subst hd1
            subst hd2
            exact absurd hij (not_lt.mpr (le_of_lt hab))
          rw [if_neg h1]
          have h2 : ¬(i = b ∧ a ∈ j :: l) := by
            rintro ⟨hib, hal⟩
            rcases List.mem_cons.mp hal with haj | hal'
            · exact hc ⟨by rw [haj], by rw [hib]⟩
            · exact hmem ⟨hib, hal'⟩
          rw [if_neg h2]
      · rw [if_neg hij]
        have h2 : ¬(i = b ∧ a ∈ j :: l) := by
          rintro ⟨hib, hal⟩
          rcases List.mem_cons.mp hal with haj | hal'
          · refine hij ?_
            rw [hib, ← haj]
            exact hab
          · exact hmem ⟨hib, hal'⟩
        rw [if_neg h2]

theorem pairGo_zero_left {n : ℕ} (t : Fin n → Fin n → ℝ) (l : List (Fin n))
    (M : Mat (n + 1)) (y : Fin (n + 1)) :
    pairGo t l M 0 y = M 0 y := by
  induction l generalizing M with
  | nil => rfl
  | cons i l ih =>
    show pairGo t l _ 0 y = M 0 y
    rw [ih]
    exact pairInnerGo_zero_left t i (List.finRange n) M y

theorem pairGo_zero_right {n : ℕ} (t : Fin n → Fin n → ℝ) (l : List (Fin n))
    (M : Mat (n + 1)) (x : Fin (n + 1)) :
    pairGo t l M x 0 = M x 0 := by
  induction l generalizing M with
  | nil => rfl
  | cons i l ih =>
    show pairGo t l _ x 0 = M x 0
    rw [ih]
    exact pairInnerGo_zero_right t i (List.finRange n) M x

theorem pairGo_diag {n : ℕ} (t : Fin n → Fin n → ℝ) (l : List (Fin n))
    (M : Mat (n + 1)) (a : Fin n) :
    pairGo t l M a.succ a.succ = M a.succ a.succ := by
  induction l generalizing M with
  | nil => rfl
  | cons i l ih =>
    show pairGo t l _ a.succ a.succ = M a.succ a.succ
    rw [ih]
    exact pairInnerGo_diag t i (List.finRange n) M a

theorem pairGo_succ_lt {n : ℕ} (t : Fin n → Fin n → ℝ) (l : List (Fin n))
    (M : Mat (n + 1)) {a b : Fin n} (hab : a < b) :
    pairGo t l M a.succ b.succ = if a ∈ l then t a b else M a.succ b.succ := by
  induction l generalizing M with
  | nil => simp [pairGo]
  | cons i l ih =>
    show pairGo t l _ a.succ b.succ = _
    rw [ih]
    by_cases hmem : a ∈ l
    · rw [if_pos hmem, if_pos (List.mem_cons_of_mem i hmem)]
    · rw [if_neg hmem]
      beta_reduce
      rw [pairInnerGo_succ_lt t i (List.finRange n) M hab]
      by_cases hia : i = a
      · rw [if_pos ⟨hia, List.mem_finRange b⟩,
          if_pos (by rw [← hia]; exact List.mem_cons_self i l)]
      · rw [if_neg (fun hc => hia hc.1)]
        have hnot : ¬(a ∈ i :: l) := by
          intro hmem2
          rcases List.mem_cons.mp hmem2 with hai | h'
          · exact hia hai.symm
          · exact hmem h'
        rw [if_neg hnot]

theorem pairGo_succ_gt {n : ℕ} (t : Fin n → Fin n → ℝ) (l : List (Fin n))
    (M : Mat (n + 1)) {a b : Fin n} (hab : b < a) :
    pairGo t l M a.succ b.succ = if b ∈ l then t b a else M a.succ b.succ := by
  induction l generalizing M with
  | nil => simp [pairGo]
  | cons i l ih =>
    show pairGo t l _ a.succ b.succ = _
    rw [ih]
    by_cases hmem : b ∈ l
    · rw [if_pos hmem, if_pos (List.mem_cons_of_mem i hmem)]
    · rw [if_neg hmem]
      beta_reduce
      rw [pairInnerGo_succ_gt t i (List.finRange n) M hab]
      by_cases hib : i = b
      · rw [if_pos ⟨hib, List.mem_finRange a⟩,
          if_pos (by rw [← hib]; exact List.mem_cons_self i l)]
      · rw [if_neg (fun hc => hib hc.1)]
        have hnot : ¬(b ∈ i :: l) := by
          intro hmem2
          rcases List.mem_cons.mp hmem2 with hbi | h'
          · exact hib hbi.symm
          · exact hmem h'
        rw [if_neg hnot]

/-- Travel time written into row/column 0 for patient index `i` (depot leg,
lines 527-531). -/
noncomputable def tempoDeposito (e : Equipe) (pacientes : List Paciente)
    (i : Fin pacientes.length) : ℝ :=
  distancia_para_tempo
    (haversine (e.lon : ℝ) (e.lat : ℝ) (pacientes.get i).lon (pacientes.get i).lat)
    VELOCIDADE_MEDIA

/-- Travel time written for the patient pair `(i, j)` (lines 534-540). -/
noncomputable def tempoPacientes (pacientes : List Paciente)
    (i j : Fin pacientes.length) : ℝ :=
  distancia_para_tempo
    (haversine (pacientes.get i).lon (pacientes.get i).lat
      (pacientes.get j).lon (pacientes.get j).lat)
    VELOCIDADE_MEDIA

/-- Closed form of the constructed matrix, entry by entry. -/
theorem calcular_matriz_eval (e : Equipe) (rest : List Equipe)
    (pacientes : List Paciente) :
    ∃ M : Mat (pacientes.length + 1),
      calcular_matriz_distancias (e :: rest) pacientes = some M ∧
      M 0 0 = 0 ∧
      (∀ j : Fin pacientes.length, M 0 j.succ = tempoDeposito e pacientes j) ∧
      (∀ i : Fin pacientes.length, M i.succ 0 = tempoDeposito e pacientes i) ∧
      (∀ a : Fin pacientes.length, M a.succ a.succ = 0) ∧
      (∀ a b : Fin pacientes.length, a < b →
        M a.succ b.succ = tempoPacientes pacientes a b ∧
        M b.succ a.succ = tempoPacientes pacientes a b) := by
  refine ⟨_, rfl, ?_, ?_, ?_, ?_, ?_⟩
  · rw [pairGo_zero_left, depotGo_zero_zero]
  · intro j
    rw [pairGo_zero_left, depotGo_zero_succ]
    rw [if_pos (List.mem_finRange j)]
    rfl
  · intro i
    rw [pairGo_zero_right, depotGo_succ_zero]
    rw [if_pos (List.mem_finRange i)]
    rfl
  · intro a
    rw [pairGo_diag, depotGo_ne_zero _ _ _ _ _ (Fin.succ_ne_zero a) (Fin.succ_ne_zero a)]
  · intro a b hab
    constructor
    · rw [pairGo_succ_lt _ _ _ hab, if_pos (List.mem_finRange a)]
      rfl
    · rw [pairGo_succ_gt _ _ _ hab, if_pos (List.mem_finRange a)]
      rfl

/-- Claim C2: for a nonempty team frame the returned matrix exists, is
`(n+1)×(n+1)` (the type `Mat (pacientes.length + 1)`), exactly symmetric,
has zero diagonal, row/column 0 hold the depot legs anchored at the first
team, and interior entries the patient-pair times in generation order. -/
theorem claim_c2_matriz_simetrica (e : Equipe) (rest : List Equipe)
    (pacientes : List Paciente) :
    ∃ M : Mat (pacientes.length + 1),
      calcular_matriz_distancias (e :: rest) pacientes = some M ∧
      (∀ i j, M i j = M j i) ∧
      (∀ i, M i i = 0) ∧
      (∀ j : Fin pacientes.length, M 0 j.succ = tempoDeposito e pacientes j) ∧
      (∀ a b : Fin pacientes.length, M a.succ b.succ =
        if a = b then 0 else tempoPacientes pacientes (min a b) (max a b)) := by
  obtain ⟨M, hM, h00, h0s, hs0, hdiag, hpair⟩ := calcular_matriz_eval e rest pacientes
  refine ⟨M, hM, ?_, ?_, h0s, ?_⟩
  · intro i j
    rcases Fin.eq_zero_or_eq_succ i with rfl | ⟨a, rfl⟩ <;>
      rcases Fin.eq_zero_or_eq_succ j with rfl | ⟨b, rfl⟩
    · rfl
    · rw [h0s b, hs0 b]
    · rw [hs0 a, h0s a]
    · rcases lt_trichotomy a b with h | h | h
      · rw [(hpair a b h).1, (hpair a b h).2]
      · subst h
        rfl
      · rw [(hpair b a h).1, (hpair b a h).2]
  · intro i
    rcases Fin.eq_zero_or_eq_succ i with rfl | ⟨a, rfl⟩
    · exact h00
    · exact hdiag a
  · intro a b
    rcases lt_trichotomy a b with h | h | h
    · rw [if_neg (ne_of_lt h), (hpair a b h).1,
        min_eq_left (le_of_lt h), max_eq_right (le_of_lt h)]
    · subst h
      rw [if_pos rfl]
      exact hdiag a
    · rw [if_neg (ne_of_gt h), (hpair b a h).2,
        min_eq_right (le_of_lt h), max_eq_left (le_of_lt h)]

/-- Latitude of matrix node `i`: node 0 is the first team's anchor, node
`k+1` the `k`-th generated patient. -/
noncomputable def nodeLat (e : Equipe) (ps : List Paciente) :
    Fin (ps.length + 1) → ℝ :=
  Fin.cases (e.lat : ℝ) (fun k => (ps.get k).lat)

/-- Longitude of matrix node `i`; same indexing as `nodeLat`. -/
noncomputable def nodeLon (e : Equipe) (ps : List Paciente) :
    Fin (ps.length + 1) → ℝ :=
  Fin.cases (e.lon : ℝ) (fun k => (ps.get k).lon)

/-- Claim C3: every off-diagonal entry equals the haversine distance of the
two nodes' coordinates divided by the fixed speed 25 km/h times 60; in
particular a node pair at exact great-circle distance 25 km yields 60.0
minutes. -/
theorem claim_c3_tempo_viagem (e : Equipe) (rest : List Equipe)
    (pacientes : List Paciente) (i j : Fin (pacientes.length + 1))
    (hij : i ≠ j) :
    ∃ M : Mat (pacientes.length + 1),
      calcular_matriz_distancias (e :: rest) pacientes = some M ∧
      M i j = distancia_para_tempo
        (haversine (nodeLon e pacientes i) (nodeLat e pacientes i)
          (nodeLon e pacientes j) (nodeLat e pacientes j)) VELOCIDADE_MEDIA ∧
      (haversine (nodeLon e pacientes i) (nodeLat e pacientes i)
          (nodeLon e pacientes j) (nodeLat e pacientes j) = 25 →
        M i j = 60) := by
  obtain ⟨M, hM, h00, h0s, hs0, hdiag, hpair⟩ := calcular_matriz_eval e rest pacientes
  have hmain : M i j = distancia_para_tempo
      (haversine (nodeLon e pacientes i) (nodeLat e pacientes i)
        (nodeLon e pacientes j) (nodeLat e pacientes j)) VELOCIDADE_MEDIA := by
    rcases Fin.eq_zero_or_eq_succ i with rfl | ⟨a, rfl⟩ <;>
      rcases Fin.eq_zero_or_eq_succ j with rfl | ⟨b, rfl⟩
    · exact absurd rfl hij
    · rw [h0s b]
      simp only [nodeLat, nodeLon, Fin.cases_zero, Fin.cases_succ]
      rfl
    · rw [hs0 a]
      simp only [nodeLat, nodeLon, Fin.cases_zero, Fin.cases_succ]
      rw [tempoDeposito, haversine_comm]
    · have hab : a ≠ b := fun h => hij (by rw [h])
      simp only [nodeLat, nodeLon, Fin.cases_succ]
      rcases lt_trichotomy a b with h | h | h
      · rw [(hpair a b h).1]
        rfl
      · exact absurd h hab
      · rw [(hpair b a h).2, tempoPacientes, haversine_comm]
  refine ⟨M, hM, hmain, fun h25 => ?_⟩
  rw [hmain, h25]
  unfold distancia_para_tempo VELOCIDADE_MEDIA
  norm_num

/-- A due-east great-circle leg along the equator has haversine length
equal to the longitude difference in radians times the Earth radius. -/
theorem haversine_equador (L : ℝ) (h1 : 0 ≤ radians L) (h2 : radians L ≤ Real.pi) :
    haversine 0 0 L 0 = radians L * 6371 := by
  show 2 * Real.arcsin (Real.sqrt (Real.sin ((radians 0 - radians 0) / 2) ^ 2 +
      Real.cos (radians 0) * Real.cos (radians 0) *
        Real.sin ((radians L - radians 0) / 2) ^ 2)) * 6371 = radians L * 6371
  have h0 : radians 0 = 0 := by simp [radians]
  rw [h0, sub_zero, sub_zero, zero_div, Real.sin_zero, Real.cos_zero]
  have e2 : (0 : ℝ) ^ 2 + 1 * 1 * Real.sin (radians L / 2) ^ 2 =
      Real.sin (radians L / 2) ^ 2 := by ring
  rw [e2]
  have hpi := Real.pi_pos
  rw [Real.sqrt_sq (Real.sin_nonneg_of_nonneg_of_le_pi (by linarith) (by linarith))]
  rw [Real.arcsin_sin (by linarith) (by linarith)]
  ring

/-- The scenario longitude: `radians L = 25/6371`, so the haversine
distance from the origin along the equator is exactly 25 km. -/
theorem haversine_cenario :
    haversine 0 0 (4500 / (6371 * Real.pi)) 0 = 25 := by
  have hπ : Real.pi ≠ 0 := Real.pi_ne_zero
  have hrad : radians (4500 / (6371 * Real.pi)) = 25 / 6371 := by
    unfold radians
    field_simp
    ring
  have h1 : (0 : ℝ) ≤ radians (4500 / (6371 * Real.pi)) := by
    rw [hrad]
    norm_num
  have h2 : radians (4500 / (6371 * Real.pi)) ≤ Real.pi := by
    rw [hrad]
    nlinarith [Real.pi_gt_three]
  rw [haversine_equador _ h1 h2, hrad]
  norm_num

def mun_sp_capital : String := "355030"

def unidadeW : String := "0000001"

def equipeW_codigo : String := "EQ01"

/-- A concrete team anchored at the origin, used by witnesses. -/
def equipeW : Equipe :=
  { co_municipio := mun_sp_capital, co_unidade := unidadeW,
    co_equipe := equipeW_codigo, tp_equipe := 22, lat := 0, lon := 0 }

/-- A concrete patient exactly 25 km due east of the depot. -/
noncomputable def pacienteW : Paciente :=
  { id := 1, lat := 0, lon := 4500 / (6371 * Real.pi), modalidade := AD2,
    janela_inicio := 420, janela_fim := 720, frequencia := 1,
    frequencia_unidade := unidade_semanal, tempo_servico := 30, prioridade := 2 }

/-- Witness for claim C3: the depot/patient pair 25 km apart yields a
matrix entry of exactly 60.0 minutes. -/
theorem claim_c3_witness :
    ∃ M : Mat 2, calcular_matriz_distancias [equipeW] [pacienteW] = some M ∧
      M 0 1 = 60 := by
  obtain ⟨M, hM, hmain, h25⟩ :=
    claim_c3_tempo_viagem equipeW [] [pacienteW] 0 1 (by decide)
  refine ⟨M, hM, h25 ?_⟩
  have h1 : nodeLon equipeW [pacienteW] 0 = 0 := by
    simp [nodeLon, equipeW]
  have h2 : nodeLat equipeW [pacienteW] 0 = 0 := by
    simp [nodeLat, equipeW]
  have h3 : nodeLon equipeW [pacienteW] 1 = 4500 / (6371 * Real.pi) := rfl
  have h4 : nodeLat equipeW [pacienteW] 1 = 0 := rfl
  rw [h1, h2, h3, h4]
  exact haversine_cenario

-- ============================================================================
-- Registry loading (`carregar_equipes_emad`, lines 314-405, and
-- `carregar_setores_censitarios`, lines 408-439)
-- ============================================================================

/-- Raw row of `tbEquipe202508.csv` restricted to the columns the loader
reads (`DT_ATIVACAO` and `SEQ_EQUIPE` are loaded but never used).
`tp_equipe` models `pd.to_numeric(..., errors='coerce')`: `none` is NaN. -/
structure EquipeRow where
  co_municipio : String
  co_unidade : String
  co_equipe : String
  tp_equipe : Option ℤ
  dt_desativacao : Option String

/-- Raw row of `tbEstabelecimento202508.csv` restricted to the used
columns; coordinates are the result of the comma-to-dot parse at lines
389-390 (`none` models an unparseable value, NaN after coercion). -/
structure EstabRow where
  co_unidade : String
  nu_latitude : Option ℚ
  nu_longitude : Option ℚ

/-- The file-system surface the generator touches: the two CNES registry
files and the IBGE demographic file, each with an existence flag and
parsed contents. -/
structure FS where
  equipesExists : Bool
  equipes : List EquipeRow
  estabExists : Bool
  estab : List EstabRow
  setoresExists : Bool
  setores : List Setor

/-- Errors the pipeline can raise.  `keyError` is pandas' `KeyError` at
the merge of line 386 when zero establishment rows survive the chunked
`isin` pre-filter: `df_estab` is then `pd.DataFrame()`, a frame without a
`CO_UNIDADE` column. -/
inductive GenError where
  | fileNotFound : GenError
  | indexError : GenError
  | keyError : GenError
deriving DecidableEq

/-- Codes accepted by the `isin` filter at line 349 (keys of
`CODIGOS_EQUIPE_AD`, lines 306-311). -/
def isCodigoAD (t : ℤ) : Bool := t = 22 || t = 46 || t = 23 || t = 77

/-- `CODIGOS_EQUIPE_AD.get(..., 'DESCONHECIDO')` (line 633). -/
def CODIGOS_EQUIPE_AD_get (t : ℤ) : String :=
  if t = 22 then "EMAD I" else if t = 46 then "EMAD II"
  else if t = 23 then "EMAP" else if t = 77 then "EMAP-R" else "DESCONHECIDO"

/-- SP state prefix used when no municipality is given (line 357). -/
def uf_sp : String := "35"

/-- pandas `str.startswith`, modelled structurally over the character
lists so that concrete registries evaluate definitionally. -/
def comecaCom (s p : String) : Bool := p.data.isPrefixOf s.data

/-- `isin` membership over a key list, modelled structurally. -/
def contemTexto : List String → String → Bool
  | [], _ => false
  | y :: rest, x => if y = x then true else contemTexto rest x

/-- `pd.merge(..., on='CO_UNIDADE', how='left')` (line 386), applied to
the establishment rows that survived the chunked `isin` pre-filter of
lines 371-381: each team row paired with every matching establishment
row, in order, or with `none` when there is no match (NaN coordinates).
This models the merge only when at least one establishment row survived;
with zero survivors the real merge raises `KeyError` instead (see
`carregar_equipes_emad`), because `pd.concat` is never reached and
`df_estab = pd.DataFrame()` has no `CO_UNIDADE` column. -/
def leftMerge (eqs : List EquipeRow) (est : List EstabRow) :
    List (EquipeRow × Option EstabRow) :=
  eqs.flatMap fun e =>
    match est.filter (fun s => decide (s.co_unidade = e.co_unidade)) with
    | [] => [(e, none)]
    | ms => ms.map fun s => (e, some s)

/-- `carregar_equipes_emad` (lines 314-405): filter team rows to active AD
teams of the requested municipality (or SP state), join coordinates, drop
rows with missing (`dropna`, line 393) or zero (line 394) coordinates.  A
missing registry file raises `FileNotFoundError` (lines 339-340 and
367-368).  The establishment table is pre-filtered to the `CO_UNIDADE`
values of the kept team rows (lines 362 and 371-381); when that filter
keeps nothing, `chunks == []`, `df_estab = pd.DataFrame()` is column-less
and the merge at line 386 raises `KeyError` (`GenError.keyError`). -/
def carregar_equipes_emad (fs : FS) (municipio_codigo : Option String) :
    Except GenError (List Equipe) :=
  if fs.equipesExists = false then Except.error GenError.fileNotFound
  else
    let df1 := fs.equipes.filter fun r =>
      match r.tp_equipe with
      | some t => isCodigoAD t
      | none => false
    let df2 := df1.filter fun r => r.dt_desativacao.isNone
    let df3 :=
      match municipio_codigo with
      | some m => df2.filter fun r => comecaCom r.co_municipio m
      | none => df2.filter fun r => comecaCom r.co_municipio uf_sp
    if fs.estabExists = false then Except.error GenError.fileNotFound
    else
      let unidades_necessarias := df3.map fun r => r.co_unidade
      let estabFiltrado := fs.estab.filter fun s =>
        contemTexto unidades_necessarias s.co_unidade
      if estabFiltrado.isEmpty then Except.error GenError.keyError
      else
      let merged := leftMerge df3 estabFiltrado
      Except.ok (merged.filterMap fun er =>
        match er.2 with
        | none => none
        | some s =>
          match s.nu_latitude, s.nu_longitude with
          | some la, some lo =>
            if la ≠ 0 ∧ lo ≠ 0 then
              some { co_municipio := er.1.co_municipio,
                     co_unidade := er.1.co_unidade,
                     co_equipe := er.1.co_equipe,
                     tp_equipe := er.1.tp_equipe.getD 0,
                     lat := la, lon := lo }
            else none
          | _, _ => none)

/-- `carregar_setores_censitarios` (lines 408-439): keep sectors with a
positive elderly population; a missing file raises `FileNotFoundError`
(caught by the caller). -/
def carregar_setores_censitarios (fs : FS) : List Setor :=
  fs.setores.filter fun s => 0 < s.populacao_idosa

-- ============================================================================
-- Instance assembly (`gerar_instancia`, lines 545-646)
-- ============================================================================

/-- `pandas` column mean used for the placement centre (lines 590-591),
cast to the real line. -/
def qmean (l : List ℚ) : ℝ := ((l.sum / (l.length : ℚ) : ℚ) : ℝ)

/-- Capacity draws of lines 610-613: one `randint(360, 481)` per team, in
frame order. -/
def gerar_capacidades : ℕ → RNG → List ℕ × RNG
  | 0, r => ([], r)
  | k + 1, r =>
    let d := np_random_randint CAPACIDADE_EQUIPE_MIN (CAPACIDADE_EQUIPE_MAX + 1) r
    let rest := gerar_capacidades k d.2
    (d.1 :: rest.1, rest.2)

/-- One serialized team record of the instance (lines 627-639). -/
structure EquipeOut where
  id : ℕ
  codigo_unidade : String
  codigo_equipe : String
  tipo_codigo : ℤ
  tipo : String
  lat : ℝ
  lon : ℝ
  capacidade_diaria : ℕ

/-- Instance metadata (lines 616-626).  The constant attribution strings
and the fixed `codigos_equipe_ad` table are not repeated here. -/
structure Metadata where
  nome : String
  data_geracao : String
  n_pacientes : ℕ
  n_equipes : ℕ
  municipio : Option String
  seed : Option ℕ

/-- The assembled instance dict (lines 615-642); the matrix is stored as
`matriz.tolist()`. -/
structure Instancia where
  metadata : Metadata
  equipes : List EquipeOut
  pacientes : List Paciente
  matriz_tempos : List (List ℝ)

/-- The team records of lines 627-639, pairing frame rows with the
capacity draws in order. -/
def montar_equipes (l : List Equipe) (caps : List ℕ) : List EquipeOut :=
  (l.zip caps).enum.map fun p =>
    { id := p.1 + 1,
      codigo_unidade := p.2.1.co_unidade,
      codigo_equipe := p.2.1.co_equipe,
      tipo_codigo := p.2.1.tp_equipe,
      tipo := CODIGOS_EQUIPE_AD_get p.2.1.tp_equipe,
      lat := (p.2.1.lat : ℝ),
      lon := (p.2.1.lon : ℝ),
      capacidade_diaria := p.2.2 }

/-- `matriz.tolist()` (line 641). -/
noncomputable def matrizToLists (n : ℕ) (M : Mat (n + 1)) : List (List ℝ) :=
  (List.finRange (n + 1)).map fun i => (List.finRange (n + 1)).map fun j => M i j

/-- `gerar_instancia` (lines 545-646).  `np.random.seed(seed)` runs once at
entry when a seed is given, otherwise the ambient generator state is used;
the wall-clock timestamp `now` enters only the metadata.  Print statements
(including the modality-share log at lines 595-597) are not modelled.  The
ambient generator state after the call is not returned; every batch
configuration reseeds, so it is never read. -/
noncomputable def gerar_instancia (fs : FS) (nome : String)
    (n_pacientes n_equipes : ℕ) (municipio : Option String) (seed : Option ℕ)
    (rng : RNG) (now : String) : Except GenError Instancia :=
  let r0 := match seed with
    | some s => np_random_seed s
    | none => rng
  Except.bind (carregar_equipes_emad fs municipio) fun equipes_df =>
    let n_eq := if equipes_df.length < n_equipes then equipes_df.length else n_equipes
    let equipes := equipes_df.take n_eq
    let setores_df : Option (List Setor) :=
      if fs.setoresExists then some (carregar_setores_censitarios fs) else none
    let centro_lat := qmean (equipes.map fun e => e.lat)
    let centro_lon := qmean (equipes.map fun e => e.lon)
    let pr := gerar_pacientes n_pacientes setores_df centro_lat centro_lon 10 r0
    Option.elim (calcular_matriz_distancias equipes pr.1)
      (Except.error GenError.indexError) fun matriz =>
      let cr := gerar_capacidades equipes.length pr.2
      Except.ok
        { metadata :=
            { nome := nome, data_geracao := now, n_pacientes := n_pacientes,
              n_equipes := n_eq, municipio := municipio, seed := seed },
          equipes := montar_equipes equipes cr.1,
          pacientes := pr.1,
          matriz_tempos := matrizToLists pr.1.length matriz }

/-- Strip the wall-clock timestamp from an instance's metadata. -/
noncomputable def apagar_timestamp (i : Instancia) : Instancia :=
  { i with metadata := { i.metadata with data_geracao := "" } }

theorem map_bind_congr {α : Type} (f : Instancia → Instancia)
    (x : Except GenError α) (g₁ g₂ : α → Except GenError Instancia)
    (h : ∀ l, Except.map f (g₁ l) = Except.map f (g₂ l)) :
    Except.map f (Except.bind x g₁) = Except.map f (Except.bind x g₂) := by
  cases x with
  | error e => rfl
  | ok l => exact h l

theorem map_elim_congr {α : Type} (f : Instancia → Instancia) (x : Option α)
    (d : Except GenError Instancia) (g₁ g₂ : α → Except GenError Instancia)
    (h : ∀ M, Except.map f (g₁ M) = Except.map f (g₂ M)) :
    Except.map f (Option.elim x d g₁) = Except.map f (Option.elim x d g₂) := by
  cases x with
  | none => rfl
  | some M => exact h M

/-- Claim C1: with a fixed seed, two runs of `gerar_instancia` on the same
file system and parameters agree on everything — patients, teams,
capacities and the distance matrix — except the wall-clock timestamp in
the metadata, whatever the ambient generator states and clock readings
were, because the stream is reseeded once at entry, upstream of all
sampling. -/
theorem claim_c1_reprodutibilidade (fs : FS) (nome : String) (n k : ℕ)
    (mun : Option String) (s : ℕ) (rng₁ rng₂ : RNG) (ts₁ ts₂ : String) :
    Except.map apagar_timestamp (gerar_instancia fs nome n k mun (some s) rng₁ ts₁) =
    Except.map apagar_timestamp (gerar_instancia fs nome n k mun (some s) rng₂ ts₂) := by
  unfold gerar_instancia
  exact map_bind_congr _ _ _ _ (fun l => map_elim_congr _ _ _ _ _ (fun M => rfl))

/-- `gerar_pacientes` never reads its `setores_df` argument. -/
theorem gerar_pacientes_setores_none (n : ℕ) (sdf : Option (List Setor))
    (clat clon raio : ℝ) (r : RNG) :
    gerar_pacientes n sdf clat clon raio r = gerar_pacientes n none clat clon raio r := rfl

/-- Claim C6: patient generation is independent of the demographic input —
any two `setores_df` arguments give identical outputs — and the whole
instance generation is insensitive to whether the demographic file exists,
because the `FileNotFoundError` is caught and the loaded data is never
used downstream. -/
theorem claim_c6_independencia_demografia :
    (∀ (n : ℕ) (s₁ s₂ : Option (List Setor)) (clat clon raio : ℝ) (r : RNG),
      gerar_pacientes n s₁ clat clon raio r = gerar_pacientes n s₂ clat clon raio r) ∧
    (∀ (fs : FS) (b₁ b₂ : Bool) (nome : String) (n k : ℕ) (mun : Option String)
      (seed : Option ℕ) (rng : RNG) (now : String),
      gerar_instancia { fs with setoresExists := b₁ } nome n k mun seed rng now =
      gerar_instancia { fs with setoresExists := b₂ } nome n k mun seed rng now) := by
  constructor
  · intro n s₁ s₂ clat clon raio r
    rfl
  · intro fs b₁ b₂ nome n k mun seed rng now
    have h : carregar_equipes_emad { fs with setoresExists := b₁ } mun =
        carregar_equipes_emad { fs with setoresExists := b₂ } mun := rfl
    unfold gerar_instancia
    rw [h]
    cases carregar_equipes_emad { fs with setoresExists := b₂ } mun with
    | error e => rfl
    | ok l => simp [gerar_pacientes_setores_none]

def nomeTeste : String := "teste"

def tsTeste : String := "2026-01-01T00:00:00"

/-- An arbitrary ambient generator state for concrete runs. -/
def rngZero : RNG := ⟨fun _ => 0, 0⟩

def eqRowW : EquipeRow :=
  { co_municipio := mun_sp_capital, co_unidade := unidadeW,
    co_equipe := equipeW_codigo, tp_equipe := some 22, dt_desativacao := none }

def estabRowW : EstabRow :=
  { co_unidade := unidadeW, nu_latitude := some (-23), nu_longitude := some (-46) }

/-- An establishment row whose coordinate strings parse to `0,0`; the
zero-coordinate filter at line 394 drops the merged row. -/
def estabRowZero : EstabRow :=
  { co_unidade := unidadeW, nu_latitude := some 0, nu_longitude := some 0 }

/-- A registry with one active AD team whose only establishment record
carries zero coordinates: the join succeeds but line 394 drops every row,
so loading returns an empty team frame. -/
def fsCoordsZero : FS :=
  { equipesExists := true, equipes := [eqRowW], estabExists := true,
    estab := [estabRowZero], setoresExists := false, setores := [] }

/-- A registry whose files exist but contain no team rows at all: zero
establishment rows survive the `isin` pre-filter, so the merge at line
386 raises `KeyError`. -/
def fsVazio : FS :=
  { equipesExists := true, equipes := [], estabExists := true, estab := [],
    setoresExists := false, setores := [] }

/-- Counterexample to claim C5 as stated: with zero teams available after
filtering and one team requested (1 > 0), generation raises instead of
clamping and succeeding.  At `fsCoordsZero` loading succeeds with an
empty frame and generation then raises `IndexError` at `equipes.iloc[0]`
(line 523); at `fsVazio` loading itself raises `KeyError` at the merge
(line 386), which propagates. -/
theorem claim_c5_counterexample :
    carregar_equipes_emad fsCoordsZero none = Except.ok [] ∧
    gerar_instancia fsCoordsZero nomeTeste 1 1 none (some 42) rngZero tsTeste =
      Except.error GenError.indexError ∧
    carregar_equipes_emad fsVazio none = Except.error GenError.keyError ∧
    gerar_instancia fsVazio nomeTeste 1 1 none (some 42) rngZero tsTeste =
      Except.error GenError.keyError := ⟨rfl, rfl, rfl, rfl⟩

theorem gerar_capacidades_length (k : ℕ) (r : RNG) :
    (gerar_capacidades k r).1.length = k := by
  induction k generalizing r with
  | zero => rfl
  | succ k ih =>
    show ((np_random_randint CAPACIDADE_EQUIPE_MIN (CAPACIDADE_EQUIPE_MAX + 1) r).1 ::
      (gerar_capacidades k _).1).length = k + 1
    rw [List.length_cons, ih]

theorem montar_equipes_length (l : List Equipe) (caps : List ℕ)
    (h : caps.length = l.length) :
    (montar_equipes l caps).length = l.length := by
  simp [montar_equipes, h]

/-- Claim C5 (amended): when the registry loads successfully with at least
one team available and fewer teams than requested, generation does not
raise, and the instance contains exactly the available number of teams. -/
theorem claim_c5_clamp_equipes (fs : FS) (nome : String) (n k : ℕ)
    (mun : Option String) (seed : Option ℕ) (rng : RNG) (now : String)
    (l : List Equipe) (hc : carregar_equipes_emad fs mun = Except.ok l)
    (hne : l ≠ []) (hlt : l.length < k) :
    ∃ inst, gerar_instancia fs nome n k mun seed rng now = Except.ok inst ∧
      inst.equipes.length = l.length ∧ inst.metadata.n_equipes = l.length := by
  cases l with
  | nil => exact absurd rfl hne
  | cons e t =>
    simp only [gerar_instancia, hc, Except.bind]
    rw [if_pos hlt, List.take_length]
    simp only [calcular_matriz_distancias, Option.elim]
    refine ⟨_, rfl, ?_, ?_⟩
    · exact montar_equipes_length _ _ (gerar_capacidades_length _ _)
    · rfl

/-- A registry with exactly one valid team row. -/
def fsUm : FS :=
  { equipesExists := true, equipes := [eqRowW], estabExists := true,
    estab := [estabRowW], setoresExists := false, setores := [] }

/-- The team that `carregar_equipes_emad` loads from `fsUm`. -/
def equipeLoaded : Equipe :=
  { co_municipio := mun_sp_capital, co_unidade := unidadeW,
    co_equipe := equipeW_codigo, tp_equipe := 22, lat := -23, lon := -46 }

/-- Witness for the amended claim C5: one available team, two requested —
generation succeeds with exactly one team. -/
theorem claim_c5_witness :
    carregar_equipes_emad fsUm none = Except.ok [equipeLoaded] ∧
    ([equipeLoaded] : List Equipe) ≠ [] ∧
    ([equipeLoaded] : List Equipe).length < 2 ∧
    ∃ inst, gerar_instancia fsUm nomeTeste 3 2 none (some 42) rngZero tsTeste =
        Except.ok inst ∧
      inst.equipes.length = 1 ∧ inst.metadata.n_equipes = 1 :=
  ⟨rfl, by simp, by simp,
    claim_c5_clamp_equipes fsUm nomeTeste 3 2 none (some 42) rngZero tsTeste
      [equipeLoaded] rfl (by simp) (by simp)⟩

-- ============================================================================
-- Batch generation (`gerar_conjunto_instancias`, lines 681-715)
-- ============================================================================

/-- One named batch configuration (lines 694-706). -/
structure Config where
  nome : String
  n_pacientes : ℕ
  n_equipes : ℕ
  seed : ℕ

/-- The fixed configuration list of lines 694-706. -/
def instancias_config : List Config :=
  [⟨"pequena_10", 10, 1, 42⟩, ⟨"pequena_20", 20, 2, 123⟩,
   ⟨"media_50", 50, 3, 456⟩, ⟨"media_100", 100, 5, 789⟩,
   ⟨"grande_200", 200, 8, 1000⟩, ⟨"grande_500", 500, 15, 2000⟩]

/-- The batch loop of lines 708-711: generate then save, configuration by
configuration; an uncaught exception halts the loop, keeping only the
instances persisted so far (the accumulator) and discarding the failing
and all remaining configurations. -/
noncomputable def batch_go (fs : FS) (rng : RNG) (now : String) :
    List Config → List Instancia → List Instancia × Option GenError
  | [], acc => (acc, none)
  | c :: cs, acc =>
    match gerar_instancia fs c.nome c.n_pacientes c.n_equipes none (some c.seed) rng now with
    | Except.error e => (acc, some e)
    | Except.ok inst => batch_go fs rng now cs (acc ++ [inst])

/-- `gerar_conjunto_instancias` (lines 681-715): run the fixed
configuration list; the pair holds the persisted instances and the error
that stopped the run, if any. -/
noncomputable def gerar_conjunto_instancias (fs : FS) (rng : RNG)
    (now : String) : List Instancia × Option GenError :=
  batch_go fs rng now instancias_config []

/-- Claim C7: a missing registry file (team table or establishment table)
makes `carregar_equipes_emad` raise; the batch loop has no per-
configuration isolation, so the error halts the whole run with nothing
persisted, and in general a failing configuration stops the loop keeping
only previously persisted instances. -/
theorem claim_c7_erro_fatal_lote (fs : FS) (rng : RNG) (now : String)
    (mun : Option String)
    (h : fs.equipesExists = false ∨ fs.estabExists = false) :
    carregar_equipes_emad fs mun = Except.error GenError.fileNotFound ∧
    gerar_conjunto_instancias fs rng now = ([], some GenError.fileNotFound) ∧
    (∀ (c : Config) (cs : List Config) (acc : List Instancia) (e : GenError),
      gerar_instancia fs c.nome c.n_pacientes c.n_equipes none (some c.seed)
          rng now = Except.error e →
      batch_go fs rng now (c :: cs) acc = (acc, some e)) := by
  have hcar : ∀ m : Option String,
      carregar_equipes_emad fs m = Except.error GenError.fileNotFound := by
    intro m
    unfold carregar_equipes_emad
    rcases h with h | h
    · rw [h]
      simp
    · by_cases hq : fs.equipesExists = false
      · simp [hq]
      · simp [hq, h]
  have hgi : ∀ (nome : String) (n k s : ℕ),
      gerar_instancia fs nome n k none (some s) rng now =
        Except.error GenError.fileNotFound := by
    intro nome n k s
    unfold gerar_instancia
    rw [hcar none]
    rfl
  refine ⟨hcar mun, ?_, ?_⟩
  · show batch_go fs rng now instancias_config [] = ([], some GenError.fileNotFound)
    rw [instancias_config]
    show (match gerar_instancia fs "pequena_10" 10 1 none (some 42) rng now with
      | Except.error e => (([] : List Instancia), some e)
      | Except.ok inst => batch_go fs rng now _ ([] ++ [inst])) =
      ([], some GenError.fileNotFound)
    rw [hgi]
  · intro c cs acc e he
    show (match gerar_instancia fs c.nome c.n_pacientes c.n_equipes none
        (some c.seed) rng now with
      | Except.error e => (acc, some e)
      | Except.ok inst => batch_go fs rng now cs (acc ++ [inst])) = (acc, some e)
    rw [he]

/-- A file system missing the team registry file. -/
def fsSemRegistro : FS :=
  { equipesExists := false, equipes := [], estabExists := true, estab := [],
    setoresExists := false, setores := [] }

/-- Witness for claim C7 on a concrete file system with the team table
missing. -/
theorem claim_c7_witness :
    carregar_equipes_emad fsSemRegistro none = Except.error GenError.fileNotFound ∧
    gerar_conjunto_instancias fsSemRegistro rngZero tsTeste =
      ([], some GenError.fileNotFound) ∧
    (∀ (c : Config) (cs : List Config) (acc : List Instancia) (e : GenError),
      gerar_instancia fsSemRegistro c.nome c.n_pacientes c.n_equipes none
          (some c.seed) rngZero tsTeste = Except.error e →
      batch_go fsSemRegistro rngZero tsTeste (c :: cs) acc = (acc, some e)) :=
  claim_c7_erro_fatal_lote fsSemRegistro rngZero tsTeste none (Or.inl rfl)

/-- A second concrete team, two degrees of latitude north of `equipeW`. -/
def equipeW2 : Equipe :=
  { co_municipio := mun_sp_capital, co_unidade := unidadeW,
    co_equipe := equipeW_codigo, tp_equipe := 22, lat := 2, lon := 0 }

/-- Claim C10: the placement centre (lines 590-591) is the arithmetic mean
of the selected teams' coordinates while the matrix depot (lines 522-524)
is the first selected team's anchor; with one selected team the centre
equals the depot anchor — row 0 of the matrix is then computed from the
centre coordinates themselves — and with two teams the centre can differ
from the depot anchor. -/
theorem claim_c10_centro_vs_deposito :
    (∀ t : Equipe, qmean ([t].map fun e => e.lat) = (t.lat : ℝ) ∧
      qmean ([t].map fun e => e.lon) = (t.lon : ℝ)) ∧
    (∀ (t : Equipe) (ps : List Paciente), ∃ M : Mat (ps.length + 1),
      calcular_matriz_distancias [t] ps = some M ∧
      ∀ j : Fin ps.length, M 0 j.succ = distancia_para_tempo
        (haversine (qmean ([t].map fun e => e.lon)) (qmean ([t].map fun e => e.lat))
          (ps.get j).lon (ps.get j).lat) VELOCIDADE_MEDIA) ∧
    (∃ t₁ t₂ : Equipe, qmean ([t₁, t₂].map fun e => e.lat) ≠ (t₁.lat : ℝ)) := by
  have hcentro : ∀ t : Equipe, qmean ([t].map fun e => e.lat) = (t.lat : ℝ) ∧
      qmean ([t].map fun e => e.lon) = (t.lon : ℝ) := by
    intro t
    constructor <;> simp [qmean]
  refine ⟨hcentro, ?_, ?_⟩
  · intro t ps
    obtain ⟨M, hM, h00, h0s, hs0, hdiag, hpair⟩ := calcular_matriz_eval t [] ps
    refine ⟨M, hM, fun j => ?_⟩
    rw [h0s j, (hcentro t).1, (hcentro t).2]
    rfl
  · refine ⟨equipeW, equipeW2, ?_⟩
    simp [qmean, equipeW, equipeW2]

-- ============================================================================
-- Serialization (`salvar_instancia`, lines 649-678)
-- ============================================================================

/-- Modelled from the spec: the JSON document form written by
`json.dump` at lines 659-663.  Python's `int`/`float` distinction survives
a JSON round trip, hence separate integer and real number nodes. -/
inductive JValor where
  | nulo : JValor
  | texto : String → JValor
  | inteiro : ℤ → JValor
  | real : ℝ → JValor
  | lista : List JValor → JValor
  | objeto : List (String × JValor) → JValor

def kId : String := "id"

def kLat : String := "lat"

def kLon : String := "lon"

def kModalidade : String := "modalidade"

def kJanelaInicio : String := "janela_inicio"

def kJanelaFim : String := "janela_fim"

def kFrequencia : String := "frequencia"

def kFrequenciaUnidade : String := "frequencia_unidade"

def kTempoServico : String := "tempo_servico"

def kPrioridade : String := "prioridade"

def kCodigoUnidade : String := "codigo_unidade"

def kCodigoEquipe : String := "codigo_equipe"

def kTipoCodigo : String := "tipo_codigo"

def kTipo : String := "tipo"

def kCapacidadeDiaria : String := "capacidade_diaria"

def kNome : String := "nome"

def kDataGeracao : String := "data_geracao"

def kNPacientes : String := "n_pacientes"

def kNEquipes : String := "n_equipes"

def kMunicipio : String := "municipio"

def kSeed : String := "seed"

def kMetadata : String := "metadata"

def kEquipes : String := "equipes"

def kPacientes : String := "pacientes"

def kMatrizTempos : String := "matriz_tempos"

/-- JSON form of one patient dict (lines 483-494 as serialized). -/
def pacienteParaJson (p : Paciente) : JValor :=
  JValor.objeto
    [(kId, JValor.inteiro p.id), (kLat, JValor.real p.lat),
     (kLon, JValor.real p.lon), (kModalidade, JValor.texto p.modalidade),
     (kJanelaInicio, JValor.inteiro p.janela_inicio),
     (kJanelaFim, JValor.inteiro p.janela_fim),
     (kFrequencia, JValor.inteiro p.frequencia),
     (kFrequenciaUnidade, JValor.texto p.frequencia_unidade),
     (kTempoServico, JValor.inteiro p.tempo_servico),
     (kPrioridade, JValor.inteiro p.prioridade)]

/-- JSON form of one team record (lines 627-639 as serialized). -/
def equipeParaJson (e : EquipeOut) : JValor :=
  JValor.objeto
    [(kId, JValor.inteiro e.id), (kCodigoUnidade, JValor.texto e.codigo_unidade),
     (kCodigoEquipe, JValor.texto e.codigo_equipe),
     (kTipoCodigo, JValor.inteiro e.tipo_codigo), (kTipo, JValor.texto e.tipo),
     (kLat, JValor.real e.lat), (kLon, JValor.real e.lon),
     (kCapacidadeDiaria, JValor.inteiro e.capacidade_diaria)]

def opcaoTextoParaJson : Option String → JValor
  | none => JValor.nulo
  | some s => JValor.texto s

def opcaoNatParaJson : Option ℕ → JValor
  | none => JValor.nulo
  | some n => JValor.inteiro n

/-- JSON form of the metadata (lines 616-626; the constant attribution
strings and code table are fixed text, omitted from the model). -/
def metadataParaJson (m : Metadata) : JValor :=
  JValor.objeto
    [(kNome, JValor.texto m.nome), (kDataGeracao, JValor.texto m.data_geracao),
     (kNPacientes, JValor.inteiro m.n_pacientes),
     (kNEquipes, JValor.inteiro m.n_equipes),
     (kMunicipio, opcaoTextoParaJson m.municipio),
     (kSeed, opcaoNatParaJson m.seed)]

def linhaParaJson (row : List ℝ) : JValor := JValor.lista (row.map JValor.real)

/-- `salvar_instancia(instancia, formato='json')` (lines 659-663): the JSON
document written to disk. -/
def salvar_instancia_json (i : Instancia) : JValor :=
  JValor.objeto
    [(kMetadata, metadataParaJson i.metadata),
     (kEquipes, JValor.lista (i.equipes.map equipeParaJson)),
     (kPacientes, JValor.lista (i.pacientes.map pacienteParaJson)),
     (kMatrizTempos, JValor.lista (i.matriz_tempos.map linhaParaJson))]

def jBusca : List (String × JValor) → String → Option JValor
  | [], _ => none
  | kv :: rest, k => if kv.1 = k then some kv.2 else jBusca rest k

def jTexto : JValor → Option String
  | JValor.texto s => some s
  | _ => none

def jNat : JValor → Option ℕ
  | JValor.inteiro (Int.ofNat n) => some n
  | _ => none

def jInteiro : JValor → Option ℤ
  | JValor.inteiro i => some i
  | _ => none

def jReal : JValor → Option ℝ
  | JValor.real r => some r
  | _ => none

def jLista : JValor → Option (List JValor)
  | JValor.lista l => some l
  | _ => none

def jObjeto : JValor → Option (List (String × JValor))
  | JValor.objeto l => some l
  | _ => none

def jTextoOpcional : JValor → Option (Option String)
  | JValor.nulo => some none
  | JValor.texto s => some (some s)
  | _ => none

def jNatOpcional : JValor → Option (Option ℕ)
  | JValor.nulo => some none
  | JValor.inteiro (Int.ofNat n) => some (some n)
  | _ => none

/-- Parse every element of a list, failing if any element fails. -/
def sequenciaOpcional {α β : Type} (f : α → Option β) : List α → Option (List β)
  | [] => some []
  | x :: xs =>
    Option.bind (f x) fun b =>
    Option.bind (sequenciaOpcional f xs) fun bs =>
    some (b :: bs)

theorem sequenciaOpcional_map {α β : Type} (f : α → Option β) (g : β → α)
    (l : List β) (h : ∀ x, f (g x) = some x) :
    sequenciaOpcional f (l.map g) = some l := by
  induction l with
  | nil => rfl
  | cons x xs ih =>
    show Option.bind (f (g x)) (fun b =>
      Option.bind (sequenciaOpcional f (xs.map g)) fun bs => some (b :: bs)) = _
    rw [h x, ih]
    rfl

/-- Modelled from the spec: the instance parser for the JSON form.  No
loader exists in the repository; the spec's round-trip requirement
("parsing either form back must reproduce equivalent in-memory
teams/patients/matrix") defines its contract. -/
def pacienteDeJson (j : JValor) : Option Paciente :=
  Option.bind (jObjeto j) fun o =>
  Option.bind (Option.bind (jBusca o kId) jNat) fun id =>
  Option.bind (Option.bind (jBusca o kLat) jReal) fun lat =>
  Option.bind (Option.bind (jBusca o kLon) jReal) fun lon =>
  Option.bind (Option.bind (jBusca o kModalidade) jTexto) fun modalidade =>
  Option.bind (Option.bind (jBusca o kJanelaInicio) jNat) fun ji =>
  Option.bind (Option.bind (jBusca o kJanelaFim) jNat) fun jf =>
  Option.bind (Option.bind (jBusca o kFrequencia) jNat) fun freq =>
  Option.bind (Option.bind (jBusca o kFrequenciaUnidade) jTexto) fun fu =>
  Option.bind (Option.bind (jBusca o kTempoServico) jNat) fun ts =>
  Option.bind (Option.bind (jBusca o kPrioridade) jNat) fun prio =>
  some { id := id, lat := lat, lon := lon, modalidade := modalidade,
         janela_inicio := ji, janela_fim := jf, frequencia := freq,
         frequencia_unidade := fu, tempo_servico := ts, prioridade := prio }

/-- Modelled from the spec: team-record parser for the JSON form. -/
def equipeDeJson (j : JValor) : Option EquipeOut :=
  Option.bind (jObjeto j) fun o =>
  Option.bind (Option.bind (jBusca o kId) jNat) fun id =>
  Option.bind (Option.bind (jBusca o kCodigoUnidade) jTexto) fun cu =>
  Option.bind (Option.bind (jBusca o kCodigoEquipe) jTexto) fun ce =>
  Option.bind (Option.bind (jBusca o kTipoCodigo) jInteiro) fun tc =>
  Option.bind (Option.bind (jBusca o kTipo) jTexto) fun tipo =>
  Option.bind (Option.bind (jBusca o kLat) jReal) fun lat =>
  Option.bind (Option.bind (jBusca o kLon) jReal) fun lon =>
  Option.bind (Option.bind (jBusca o kCapacidadeDiaria) jNat) fun cap =>
  some { id := id, codigo_unidade := cu, codigo_equipe := ce,
         tipo_codigo := tc, tipo := tipo, lat := lat, lon := lon,
         capacidade_diaria := cap }

/-- Modelled from the spec: metadata parser for the JSON form. -/
def metadataDeJson (j : JValor) : Option Metadata :=
  Option.bind (jObjeto j) fun o =>
  Option.bind (Option.bind (jBusca o kNome) jTexto) fun nome =>
  Option.bind (Option.bind (jBusca o kDataGeracao) jTexto) fun dg =>
  Option.bind (Option.bind (jBusca o kNPacientes) jNat) fun np =>
  Option.bind (Option.bind (jBusca o kNEquipes) jNat) fun ne =>
  Option.bind (Option.bind (jBusca o kMunicipio) jTextoOpcional) fun mu =>
  Option.bind (Option.bind (jBusca o kSeed) jNatOpcional) fun sd =>
  some { nome := nome, data_geracao := dg, n_pacientes := np, n_equipes := ne,
         municipio := mu, seed := sd }

/-- Modelled from the spec: one matrix row from the JSON form. -/
def linhaDeJson (j : JValor) : Option (List ℝ) :=
  Option.bind (jLista j) (sequenciaOpcional jReal)

/-- Modelled from the spec: the full instance parser for the JSON form. -/
def carregar_instancia_json (j : JValor) : Option Instancia :=
  Option.bind (jObjeto j) fun o =>
  Option.bind (Option.bind (jBusca o kMetadata) metadataDeJson) fun md =>
  Option.bind (Option.bind (jBusca o kEquipes) jLista) fun eqsJ =>
  Option.bind (sequenciaOpcional equipeDeJson eqsJ) fun eqs =>
  Option.bind (Option.bind (jBusca o kPacientes) jLista) fun pacsJ =>
  Option.bind (sequenciaOpcional pacienteDeJson pacsJ) fun pacs =>
  Option.bind (Option.bind (jBusca o kMatrizTempos) jLista) fun matJ =>
  Option.bind (sequenciaOpcional linhaDeJson matJ) fun mat =>
  some { metadata := md, equipes := eqs, pacientes := pacs,
         matriz_tempos := mat }

theorem pacienteDeJson_volta (p : Paciente) :
    pacienteDeJson (pacienteParaJson p) = some p := rfl

theorem equipeDeJson_volta (e : EquipeOut) :
    equipeDeJson (equipeParaJson e) = some e := rfl

theorem metadataDeJson_volta (m : Metadata) :
    metadataDeJson (metadataParaJson m) = some m := by
  obtain ⟨nome, dg, np, ne, mu, sd⟩ := m
  cases mu <;> cases sd <;> rfl

theorem linhaDeJson_volta (row : List ℝ) :
    linhaDeJson (linhaParaJson row) = some row := by
  show Option.bind (jLista (JValor.lista (row.map JValor.real)))
    (sequenciaOpcional jReal) = some row
  rw [show jLista (JValor.lista (row.map JValor.real)) =
    some (row.map JValor.real) from rfl]
  show sequenciaOpcional jReal (row.map JValor.real) = some row
  exact sequenciaOpcional_map jReal JValor.real row (fun x => rfl)

theorem carregar_instancia_json_volta (i : Instancia) :
    carregar_instancia_json (salvar_instancia_json i) = some i := by
  obtain ⟨md, eqs, pacs, mat⟩ := i
  show (Option.bind (metadataDeJson (metadataParaJson md)) fun md' =>
    Option.bind (sequenciaOpcional equipeDeJson (eqs.map equipeParaJson)) fun eqs' =>
    Option.bind (sequenciaOpcional pacienteDeJson (pacs.map pacienteParaJson)) fun pacs' =>
    Option.bind (sequenciaOpcional linhaDeJson (mat.map linhaParaJson)) fun mat' =>
    some (Instancia.mk md' eqs' pacs' mat')) =
    some (Instancia.mk md eqs pacs mat)
  rw [metadataDeJson_volta md,
    sequenciaOpcional_map equipeDeJson equipeParaJson eqs equipeDeJson_volta,
    sequenciaOpcional_map pacienteDeJson pacienteParaJson pacs pacienteDeJson_volta,
    sequenciaOpcional_map linhaDeJson linhaParaJson mat linhaDeJson_volta]
  rfl

/-- Modelled from the spec: one typed cell of the tabular (CSV) form; the
textual encoding of numbers is abstracted to exact values. -/
inductive Celula where
  | texto : String → Celula
  | inteiro : ℤ → Celula
  | real : ℝ → Celula

/-- The three flat tables written by `salvar_instancia(..., formato='csv')`
(lines 665-678), cell grids in the DataFrame column order. -/
structure TabelasCsv where
  equipes : List (List Celula)
  pacientes : List (List Celula)
  matriz : List (List Celula)

/-- Row of `pd.DataFrame(instancia['equipes'])` in dict-key order. -/
def equipeParaLinha (e : EquipeOut) : List Celula :=
  [Celula.inteiro e.id, Celula.texto e.codigo_unidade,
   Celula.texto e.codigo_equipe, Celula.inteiro e.tipo_codigo,
   Celula.texto e.tipo, Celula.real e.lat, Celula.real e.lon,
   Celula.inteiro e.capacidade_diaria]

/-- Row of `pd.DataFrame(instancia['pacientes'])` in dict-key order. -/
def pacienteParaLinha (p : Paciente) : List Celula :=
  [Celula.inteiro p.id, Celula.real p.lat, Celula.real p.lon,
   Celula.texto p.modalidade, Celula.inteiro p.janela_inicio,
   Celula.inteiro p.janela_fim, Celula.inteiro p.frequencia,
   Celula.texto p.frequencia_unidade, Celula.inteiro p.tempo_servico,
   Celula.inteiro p.prioridade]

/-- `salvar_instancia(instancia, formato='csv')` (lines 665-678): the
teams, patients and matrix tables (metadata is not written in CSV form). -/
def salvar_instancia_csv (i : Instancia) : TabelasCsv :=
  { equipes := i.equipes.map equipeParaLinha,
    pacientes := i.pacientes.map pacienteParaLinha,
    matriz := i.matriz_tempos.map fun row => row.map Celula.real }

/-- Modelled from the spec: team-row parser for the tabular form. -/
def equipeDeLinha : List Celula → Option EquipeOut
  | [Celula.inteiro (Int.ofNat id), Celula.texto cu, Celula.texto ce,
     Celula.inteiro tc, Celula.texto tipo, Celula.real la, Celula.real lo,
     Celula.inteiro (Int.ofNat cap)] =>
    some { id := id, codigo_unidade := cu, codigo_equipe := ce,
           tipo_codigo := tc, tipo := tipo, lat := la, lon := lo,
           capacidade_diaria := cap }
  | _ => none

/-- Modelled from the spec: patient-row parser for the tabular form. -/
def pacienteDeLinha : List Celula → Option Paciente
  | [Celula.inteiro (Int.ofNat id), Celula.real la, Celula.real lo,
     Celula.texto modalidade, Celula.inteiro (Int.ofNat ji),
     Celula.inteiro (Int.ofNat jf), Celula.inteiro (Int.ofNat freq),
     Celula.texto fu, Celula.inteiro (Int.ofNat ts),
     Celula.inteiro (Int.ofNat prio)] =>
    some { id := id, lat := la, lon := lo, modalidade := modalidade,
           janela_inicio := ji, janela_fim := jf, frequencia := freq,
           frequencia_unidade := fu, tempo_servico := ts, prioridade := prio }
  | _ => none

def celulaReal : Celula → Option ℝ
  | Celula.real r => some r
  | _ => none

/-- Modelled from the spec: the tabular parser, recovering the teams,
patients and matrix (the CSV form carries no metadata). -/
def carregar_instancia_csv (t : TabelasCsv) :
    Option (List EquipeOut × List Paciente × List (List ℝ)) :=
  Option.bind (sequenciaOpcional equipeDeLinha t.equipes) fun eqs =>
  Option.bind (sequenciaOpcional pacienteDeLinha t.pacientes) fun pacs =>
  Option.bind (sequenciaOpcional (sequenciaOpcional celulaReal) t.matriz) fun mat =>
  some (eqs, pacs, mat)

/-- Claim C8: serializing an assembled instance to the JSON document and
parsing it back reproduces the instance exactly, and the tabular CSV form
reproduces teams, patients and the distance matrix exactly.  Coordinates
are modelled as exact reals, so exact equality holds — which in particular
gives the claimed agreement to 6 decimal places (patient coordinates are
already rounded to 6 decimals at generation). -/
theorem claim_c8_ida_e_volta (i : Instancia) :
    carregar_instancia_json (salvar_instancia_json i) = some i ∧
    carregar_instancia_csv (salvar_instancia_csv i) =
      some (i.equipes, i.pacientes, i.matriz_tempos) := by
  refine ⟨carregar_instancia_json_volta i, ?_⟩
  show (Option.bind (sequenciaOpcional equipeDeLinha (i.equipes.map equipeParaLinha)) fun eqs =>
    Option.bind (sequenciaOpcional pacienteDeLinha (i.pacientes.map pacienteParaLinha)) fun pacs =>
    Option.bind (sequenciaOpcional (sequenciaOpcional celulaReal)
      (i.matriz_tempos.map fun row => row.map Celula.real)) fun mat =>
    some (eqs, pacs, mat)) = some (i.equipes, i.pacientes, i.matriz_tempos)
  rw [sequenciaOpcional_map equipeDeLinha equipeParaLinha i.equipes (fun e => rfl),
    sequenciaOpcional_map pacienteDeLinha pacienteParaLinha i.pacientes (fun p => rfl),
    sequenciaOpcional_map (sequenciaOpcional celulaReal)
      (fun row => row.map Celula.real) i.matriz_tempos
      (fun row => sequenciaOpcional_map celulaReal Celula.real row (fun x => rfl))]
  rfl
